import Mathlib

/-!
Verification development for a small real-time notification relay.

The embedded source files are:

- controllers/notification.controller.js : two Express handlers, the POST
  handler (exported as notification) and the GET handler (getNotification);
- models/notification.model.js : a Mongoose schema with a required String
  message, an optional String userId, a Boolean read defaulting to false,
  and automatic timestamps;
- config/server.config.js : a module-level io binding, an async initSocket
  that assigns it after an awaited dynamic import of socket.io and that
  registers a connection handler whose close callback is subscribed to the
  event name "disconnected", and a getIo accessor that throws when io is
  still unassigned;
- index.js : startup code calling initSocket(server) without awaiting it,
  then connectDB, then registering the /notification routes, then listen.

JavaScript request-body values are modelled by the JSValue type together
with their truthiness; the Mongoose store is a list of records plus a
next-identifier counter and an availability flag (an unavailable store
makes create and find throw); the socket.io instance is a list of connected
client identifiers plus a log of per-client deliveries, and emit appends one
delivery per connected client. The POST handler has no try/catch, so an
error thrown by create or getIo escapes the async handler: this is modelled
by an outcome whose response is absent and whose uncaught flag is set.
-/

namespace WsNotify

/-- A JavaScript value as it can appear in a parsed JSON request body
(restricted to the shapes the claims exercise). -/
inductive JSValue where
  | vStr (s : String)
  | vNum (n : Int)
  | vBool (b : Bool)
  | vNull
  | vUndefined
deriving DecidableEq, Repr

/-- JavaScript truthiness, as tested by the controller condition
(not message or not userId). -/
def truthy : JSValue → Bool
  | .vStr s => !(s == "")
  | .vNum n => !(n == 0)
  | .vBool b => b
  | .vNull => false
  | .vUndefined => false

/-- A persisted notification document: generated id, cast message, optional
userId (the schema declares userId as a String with no required flag),
read defaulting to false, and the createdAt/updatedAt timestamps that
the timestamps schema option generates. -/
structure NotificationRecord where
  id : Nat
  message : String
  userId : Option String
  read : Bool
  createdAt : Nat
  updatedAt : Nat
deriving DecidableEq, Repr

/-- The Mongoose-backed store: the persisted documents, the next generated
identifier, and an availability flag; when the store is unavailable both
create and find throw. -/
structure Store where
  records : List NotificationRecord
  nextId : Nat
  available : Bool
deriving DecidableEq, Repr

/-- Mongoose cast of a value to the String schema type: strings pass
through, numbers and booleans are stringified, null and undefined stay
missing. -/
def castToString : JSValue → Option String
  | .vStr s => some s
  | .vNum n => some (toString n)
  | .vBool b => some (cond b "true" "false")
  | .vNull => none
  | .vUndefined => none

/-- The Mongoose required validator on a String path: it fails when the
value is missing or casts to the empty string. -/
def requiredStringOk (v : JSValue) : Bool :=
  match castToString v with
  | some s => !(s == "")
  | none => false

/-- The ways a create call can throw. -/
inductive DbError where
  | storageUnavailable
  | validationFailed
deriving DecidableEq, Repr

/-- notiSchema.create from models/notification.model.js: throws when the
store is unavailable, runs the required validator on message (the only
required path in the schema), and otherwise appends a document with a
generated id, the cast message, the cast userId when one was given,
read false, and both timestamps set to the current time. -/
def schemaCreate (st : Store) (message userId : JSValue) (now : Nat) :
    Except DbError (NotificationRecord × Store) :=
  if !st.available then
    .error .storageUnavailable
  else if !(requiredStringOk message) then
    .error .validationFailed
  else
    let r : NotificationRecord :=
      { id := st.nextId
        message := (castToString message).getD ""
        userId := castToString userId
        read := false
        createdAt := now
        updatedAt := now }
    .ok (r, { st with records := st.records ++ [r], nextId := st.nextId + 1 })

/-- One message pushed to one connected client. -/
structure Delivery where
  clientId : Nat
  event : String
  payload : NotificationRecord
deriving DecidableEq, Repr

/-- The socket.io server instance: the identifiers of the currently
connected clients and the log of everything pushed to them so far. -/
structure IoState where
  clients : List Nat
  deliveries : List Delivery
deriving DecidableEq, Repr

/-- io.emit(event, payload): pushes the payload, tagged with the event
name, to every currently connected client. -/
def IoState.emit (io : IoState) (event : String) (payload : NotificationRecord) : IoState :=
  { io with
    deliveries :=
      io.deliveries ++ io.clients.map (fun c => { clientId := c, event := event, payload := payload }) }

/-- The error message thrown by getIo when the module-level io binding is
still unassigned. -/
def socketNotInitializedMsg : String := "Socket not initialized..."

/-- getIo from config/server.config.js: throws when io is unassigned,
otherwise returns the instance. -/
def getIo : Option IoState → Except String IoState
  | none => .error socketNotInitializedMsg
  | some io => .ok io

/-- The data field of a JSON response: a single document for the write
endpoint, the full list for the read endpoint. -/
inductive ResponseData where
  | one (r : NotificationRecord)
  | many (rs : List NotificationRecord)
deriving DecidableEq, Repr

/-- A JSON response as both controllers build it: status code, message
string, success flag, and an optional data field. -/
structure HttpResponse where
  status : Nat
  message : String
  success : Bool
  data : Option ResponseData
deriving DecidableEq, Repr

/-- The destructured request body of the POST handler. -/
structure RequestBody where
  message : JSValue
  userId : JSValue
deriving DecidableEq, Repr

/-- What a run of the POST handler leaves behind: the response it sent
(absent when a thrown error escaped the handler uncaught), the store, the
io binding, and whether an error escaped. -/
structure PostOutcome where
  response : Option HttpResponse
  store : Store
  io : Option IoState
  uncaught : Bool
deriving DecidableEq, Repr

/-- The 400 body the POST handler sends when validation fails. -/
def badRequestResponse : HttpResponse :=
  { status := 400, message := "Bad Request", success := false, data := none }

/-- The message string of the write endpoint's 201 response. -/
def postSuccessMessage : String := "Notification Sent Successfully"

/-- The POST handler (exported as notification): destructures message and
userId, returns 400 when either is falsy, otherwise awaits
notiSchema.create, calls getIo and emits the event "notification" with the
created document to every connected client, and responds 201 with the same
document as data. The handler has no try/catch, so an error thrown by
create or getIo escapes uncaught and no response is sent on those paths;
in particular no emit happens after a failed create. -/
def notification (body : RequestBody) (st : Store) (io : Option IoState) (now : Nat) :
    PostOutcome :=
  if !(truthy body.message) || !(truthy body.userId) then
    { response := some badRequestResponse, store := st, io := io, uncaught := false }
  else
    match schemaCreate st body.message body.userId now with
    | .error _ => { response := none, store := st, io := io, uncaught := true }
    | .ok (newNotification, st2) =>
      match getIo io with
      | .error _ => { response := none, store := st2, io := io, uncaught := true }
      | .ok ioState =>
        { response := some
            { status := 201
              message := postSuccessMessage
              success := true
              data := some (.one newNotification) }
          store := st2
          io := some (ioState.emit "notification" newNotification)
          uncaught := false }

/-- The GET handler (getNotification): inside a try/catch it awaits
notiSchema.find (which throws when the store is unavailable, caught as a
500), responds 404 when the result is empty, and otherwise responds 200
with every stored document as data and, as the source has it, the message
string "Notification Sent Successfully". -/
def getNotification (st : Store) : HttpResponse :=
  if !st.available then
    { status := 500, message := "Internal Server Error", success := false, data := none }
  else if st.records.length == 0 then
    { status := 404, message := "No Notification Found", success := false, data := none }
  else
    { status := 200, message := postSuccessMessage, success := true,
      data := some (.many st.records) }

/-- The observable steps of process startup in index.js, including the
deferred completion of initSocket. -/
inductive StartupEvent where
  | initSocketCalled
  | connectDbCalled
  | routesRegistered
  | serverListening
  | ioAssigned
deriving DecidableEq, BEq, Repr

/-- The startup order of index.js: initSocket(server) is called first but
not awaited, and inside initSocket the assignment to the io binding sits
after an awaited dynamic import of socket.io, so the async function
suspends there and the assignment runs only after the synchronous module
evaluation (connectDB, middleware, route registration, listen) has
finished. -/
def startupTrace : List StartupEvent :=
  [.initSocketCalled, .connectDbCalled, .routesRegistered, .serverListening, .ioAssigned]

/-- Position of a startup event in a trace. -/
def eventIndex (e : StartupEvent) (tr : List StartupEvent) : Nat :=
  tr.findIdx (fun x => x == e)

/-- The close-event name the connection lifecycle handler in
config/server.config.js subscribes its callback to. -/
def configCloseEventSubscribed : String := "disconnected"

/-- The transport close-event name in the server.config.js listing embedded
in the repository's own WebSocket documentation. -/
def docsCloseEventSubscribed : String := "disconnect"

/-- The canonical socket.io transport close event, as the event table of the
repository documentation records it (fired when a client disconnects). -/
def canonicalCloseEvent : String := "disconnect"

/-- The falsy request-body values the validation claim enumerates. -/
def falsyValues : List JSValue :=
  [.vStr "", .vNum 0, .vBool false, .vNull, .vUndefined]

/-- A concrete stored document used to instantiate proved theorems. -/
def sampleRecord : NotificationRecord :=
  { id := 0, message := "hello", userId := some "u1", read := false,
    createdAt := 5, updatedAt := 5 }

/-- A concrete document created with an absent userId. -/
def noUserRecord : NotificationRecord :=
  { id := 0, message := "hello", userId := none, read := false,
    createdAt := 0, updatedAt := 0 }

/-- A concrete document whose message is a single space. -/
def blankRecord : NotificationRecord :=
  { id := 0, message := " ", userId := some " ", read := false,
    createdAt := 5, updatedAt := 5 }

/-- C2: a POST whose message or userId is missing (undefined) or the empty
string is answered 400 with the Bad Request body, the store is unchanged and
nothing is emitted. -/
theorem c2_missing_or_empty_rejected (body : RequestBody) (st : Store)
    (io : Option IoState) (now : Nat)
    (h : body.message = .vUndefined ∨ body.message = .vStr "" ∨
         body.userId = .vUndefined ∨ body.userId = .vStr "") :
    notification body st io now =
      { response := some badRequestResponse, store := st, io := io, uncaught := false } := by
  obtain ⟨m, u⟩ := body
  rcases h with h | h | h | h <;> subst h <;> simp [notification, truthy]

/-- Witness: a request with an undefined message is rejected with 400 and no
side effect. -/
theorem c2_missing_or_empty_rejected_witness :
    notification ⟨.vUndefined, .vStr "u1"⟩ ⟨[], 0, true⟩ (some ⟨[7], []⟩) 0 =
      { response := some badRequestResponse, store := ⟨[], 0, true⟩,
        io := some ⟨[7], []⟩, uncaught := false } :=
  c2_missing_or_empty_rejected ⟨.vUndefined, .vStr "u1"⟩ ⟨[], 0, true⟩
    (some ⟨[7], []⟩) 0 (Or.inl rfl)

/-- C3: a POST carrying non-empty message and userId strings, on an available
store with an initialized socket, is answered 201, the data document carries
the same message and userId, the generated id, read false, and both
timestamps; the document is appended to the store and emitted. -/
theorem c3_valid_post_creates_record (ms us : String) (st : Store) (ioSt : IoState)
    (now : Nat) (hm : ms ≠ "") (hu : us ≠ "") (hav : st.available = true) :
    notification ⟨.vStr ms, .vStr us⟩ st (some ioSt) now =
      { response := some
          { status := 201, message := postSuccessMessage, success := true,
            data := some (.one
              { id := st.nextId, message := ms, userId := some us, read := false,
                createdAt := now, updatedAt := now }) }
        store :=
          { records := st.records ++
              [{ id := st.nextId, message := ms, userId := some us, read := false,
                 createdAt := now, updatedAt := now }],
            nextId := st.nextId + 1, available := st.available }
        io := some (ioSt.emit "notification"
              { id := st.nextId, message := ms, userId := some us, read := false,
                createdAt := now, updatedAt := now })
        uncaught := false } := by
  simp [notification, truthy, schemaCreate, requiredStringOk, castToString, getIo,
    hm, hu, hav]

/-- Witness: a concrete valid POST yields the 201 outcome with the created
document persisted and emitted. -/
theorem c3_valid_post_creates_record_witness :
    notification ⟨.vStr "hello", .vStr "u1"⟩ ⟨[], 0, true⟩ (some ⟨[7], []⟩) 5 =
      { response := some
          { status := 201, message := postSuccessMessage, success := true,
            data := some (.one sampleRecord) }
        store := { records := [sampleRecord], nextId := 1, available := true }
        io := some (IoState.emit ⟨[7], []⟩ "notification" sampleRecord)
        uncaught := false } := by
  have h := c3_valid_post_creates_record "hello" "u1" ⟨[], 0, true⟩ ⟨[7], []⟩ 5
    (by decide) (by decide) rfl
  simpa [sampleRecord] using h

/-- C4 counterexample: with an unavailable store (the persistence write
throws), a valid POST produces no response at all — in particular not the
500 the claim asserts — because the handler has no try/catch. -/
theorem c4_no_500_on_persistence_failure :
    (notification ⟨.vStr "hello", .vStr "u1"⟩ ⟨[], 0, false⟩ (some ⟨[7], []⟩) 0).response
      = none ∧
    (notification ⟨.vStr "hello", .vStr "u1"⟩ ⟨[], 0, false⟩ (some ⟨[7], []⟩) 0).uncaught
      = true := by
  constructor <;> rfl

/-- C4 amended: when the persistence write fails on a POST that passed
validation, the thrown error escapes the handler uncaught — no response is
sent (in particular no 500) — and the broadcast is not attempted: the socket
state and the store are unchanged. -/
theorem c4_persistence_failure_uncaught (body : RequestBody) (st : Store)
    (io : Option IoState) (now : Nat)
    (hm : truthy body.message = true) (hu : truthy body.userId = true)
    (hfail : st.available = false) :
    notification body st io now =
      { response := none, store := st, io := io, uncaught := true } := by
  obtain ⟨m, u⟩ := body
  simp only [RequestBody.mk.injEq] at hm hu
  simp [notification, hm, hu, schemaCreate, hfail]

/-- Witness: a concrete valid POST against a failing store ends with no
response, an uncaught error, and no emit. -/
theorem c4_persistence_failure_uncaught_witness :
    notification ⟨.vStr "hello", .vStr "u1"⟩ ⟨[], 0, false⟩ (some ⟨[7], []⟩) 0 =
      { response := none, store := ⟨[], 0, false⟩, io := some ⟨[7], []⟩,
        uncaught := true } :=
  c4_persistence_failure_uncaught ⟨.vStr "hello", .vStr "u1"⟩ ⟨[], 0, false⟩
    (some ⟨[7], []⟩) 0 rfl rfl rfl

/-- C5: the GET handler answers 500 with the Internal Server Error body when
the store throws, 404 with the No Notification Found body when the store is
empty, and 200 with every stored document as data otherwise. -/
theorem c5_get_notification_cases (st : Store) :
    (st.available = false →
      getNotification st =
        { status := 500, message := "Internal Server Error", success := false,
          data := none }) ∧
    (st.available = true → st.records = [] →
      getNotification st =
        { status := 404, message := "No Notification Found", success := false,
          data := none }) ∧
    (st.available = true → st.records ≠ [] →
      getNotification st =
        { status := 200, message := postSuccessMessage, success := true,
          data := some (.many st.records) }) := by
  refine ⟨fun h => ?_, fun h h2 => ?_, fun h h2 => ?_⟩ <;>
    simp [getNotification, h, *, List.length_eq_zero]

/-- Witness: the three GET cases at concrete stores. -/
theorem c5_get_notification_cases_witness :
    getNotification ⟨[], 0, false⟩ =
      { status := 500, message := "Internal Server Error", success := false,
        data := none } ∧
    getNotification ⟨[], 0, true⟩ =
      { status := 404, message := "No Notification Found", success := false,
        data := none } ∧
    getNotification ⟨[sampleRecord], 1, true⟩ =
      { status := 200, message := postSuccessMessage, success := true,
        data := some (.many [sampleRecord]) } :=
  ⟨(c5_get_notification_cases ⟨[], 0, false⟩).1 rfl,
   (c5_get_notification_cases ⟨[], 0, true⟩).2.1 rfl rfl,
   (c5_get_notification_cases ⟨[sampleRecord], 1, true⟩).2.2 rfl
     (List.cons_ne_nil _ _)⟩

/-- C1: whenever the POST handler produces a 201 response whose data field is
the document r, that same r is the document just appended to the store, and
the handler leaves the socket state equal to an emit of the event
"notification" with payload r, which pushes exactly one copy of r to every
connected client. -/
theorem c1_broadcast_matches_persisted (body : RequestBody) (st : Store)
    (ioSt : IoState) (now : Nat) (r : NotificationRecord)
    (hresp : (notification body st (some ioSt) now).response =
      some { status := 201, message := postSuccessMessage, success := true,
             data := some (.one r) }) :
    (notification body st (some ioSt) now).store.records = st.records ++ [r] ∧
    (notification body st (some ioSt) now).io = some (ioSt.emit "notification" r) ∧
    (ioSt.emit "notification" r).deliveries =
      ioSt.deliveries ++
        ioSt.clients.map (fun c => { clientId := c, event := "notification", payload := r }) := by
  obtain ⟨m, u⟩ := body
  by_cases hval : (!(truthy m) || !(truthy u)) = true
  · rw [notification] at hresp
    rw [if_pos hval] at hresp
    simp [badRequestResponse] at hresp
  · by_cases hav : st.available = true
    · by_cases hreq : requiredStringOk m = true
      · rw [notification] at hresp ⊢
        rw [if_neg hval] at hresp ⊢
        simp only [schemaCreate, hav, hreq, getIo, Bool.not_true, Bool.false_eq_true,
          if_false, ite_false, Bool.not_false] at hresp ⊢
        simp at hresp
        subst hresp
        simp [IoState.emit]
      · have hreq2 : requiredStringOk m = false := by
          revert hreq; cases requiredStringOk m <;> simp
        rw [notification] at hresp
        rw [if_neg hval] at hresp
        simp [schemaCreate, hav, hreq2] at hresp
    · have hav2 : st.available = false := by
        revert hav; cases st.available <;> simp
      rw [notification] at hresp
      rw [if_neg hval] at hresp
      simp [schemaCreate, hav2] at hresp

/-- Witness: a concrete successful POST whose 201 data document is
sampleRecord appends sampleRecord to the store and emits it to the one
connected client. -/
theorem c1_broadcast_matches_persisted_witness :
    (notification ⟨.vStr "hello", .vStr "u1"⟩ ⟨[], 0, true⟩ (some ⟨[7], []⟩) 5).store.records
        = [sampleRecord] ∧
    (notification ⟨.vStr "hello", .vStr "u1"⟩ ⟨[], 0, true⟩ (some ⟨[7], []⟩) 5).io
        = some (IoState.emit ⟨[7], []⟩ "notification" sampleRecord) ∧
    (IoState.emit ⟨[7], []⟩ "notification" sampleRecord).deliveries =
      [{ clientId := 7, event := "notification", payload := sampleRecord }] := by
  have h := c1_broadcast_matches_persisted ⟨.vStr "hello", .vStr "u1"⟩ ⟨[], 0, true⟩
    ⟨[7], []⟩ 5 sampleRecord rfl
  simpa using h

/-- C6 counterexample: in the actual startup trace of index.js the
assignment of the io binding (the completion of initSocket) comes after
route registration, refuting the part of the claim that says initialization
completes before route registration. -/
theorem c6_init_completes_after_routes :
    ¬ (eventIndex .ioAssigned startupTrace < eventIndex .routesRegistered startupTrace) := by
  decide

/-- C6 amended: getIo before the io assignment throws the
Socket-not-initialized error; index.js calls initSocket before registering
the routes, but since initSocket is async, unawaited, and assigns io only
after an awaited dynamic import, the assignment lands after route
registration, so the startup ordering alone does not prevent a
request-triggered broadcast from encountering the error. -/
theorem c6_getIo_uninitialized_and_startup_order :
    getIo none = .error socketNotInitializedMsg ∧
    eventIndex .initSocketCalled startupTrace < eventIndex .routesRegistered startupTrace ∧
    eventIndex .routesRegistered startupTrace < eventIndex .ioAssigned startupTrace :=
  ⟨rfl, by decide, by decide⟩

/-- C7: the lifecycle handler in config/server.config.js subscribes its
close callback to the event name "disconnected", which differs from the
canonical socket.io close event "disconnect" that the repository's own
documentation lists and uses, so the callback never runs on a real client
disconnect. -/
theorem c7_close_event_name_mismatch :
    configCloseEventSubscribed = "disconnected" ∧
    docsCloseEventSubscribed = canonicalCloseEvent ∧
    configCloseEventSubscribed ≠ canonicalCloseEvent :=
  ⟨rfl, rfl, by decide⟩

/-- C8 counterexample: the schema accepts a create call whose userId is
absent — the created document simply has no userId — refuting the claim
that the persistence schema rejects such a creation. -/
theorem c8_schema_accepts_absent_userId :
    schemaCreate ⟨[], 0, true⟩ (.vStr "hello") .vUndefined 0 =
      .ok (noUserRecord, { records := [noUserRecord], nextId := 1, available := true }) := by
  rfl

/-- C8 amended: only message is required by the persistence schema; userId
is an optional String, so creation with an absent userId succeeds and stores
no userId, while creation with an absent message fails validation; a missing
userId is rejected only by the controller's 400 validation before create is
reached. -/
theorem c8_userId_optional_in_schema (st : Store) (now : Nat) (m : String)
    (io : Option IoState) (hm : m ≠ "") (hav : st.available = true) :
    schemaCreate st (.vStr m) .vUndefined now =
      .ok ({ id := st.nextId, message := m, userId := none, read := false,
             createdAt := now, updatedAt := now },
           { records := st.records ++
                [{ id := st.nextId, message := m, userId := none, read := false,
                   createdAt := now, updatedAt := now }],
             nextId := st.nextId + 1, available := st.available }) ∧
    schemaCreate st .vUndefined (.vStr "u1") now = .error .validationFailed ∧
    (notification ⟨.vStr m, .vUndefined⟩ st io now).response = some badRequestResponse := by
  refine ⟨?_, ?_, ?_⟩
  · simp [schemaCreate, requiredStringOk, castToString, hm, hav]
  · simp [schemaCreate, requiredStringOk, castToString, hav]
  · simp [notification, truthy]

/-- Witness: the amended C8 statement at a concrete store and message. -/
theorem c8_userId_optional_in_schema_witness :
    schemaCreate ⟨[], 0, true⟩ (.vStr "hello") .vUndefined 0 =
      .ok (noUserRecord, { records := [noUserRecord], nextId := 1, available := true }) ∧
    schemaCreate ⟨[], 0, true⟩ .vUndefined (.vStr "u1") 0 = .error .validationFailed ∧
    (notification ⟨.vStr "hello", .vUndefined⟩ ⟨[], 0, true⟩ (some ⟨[7], []⟩) 0).response
        = some badRequestResponse := by
  have h := c8_userId_optional_in_schema ⟨[], 0, true⟩ 0 "hello" (some ⟨[7], []⟩)
    (by decide) rfl
  simpa [noUserRecord] using h

/-- C9: every 200 answer of the GET handler carries the message string of
the write endpoint's success response, Notification Sent Successfully,
rather than a read-specific message. -/
theorem c9_get_200_reuses_post_message (st : Store)
    (h : (getNotification st).status = 200) :
    (getNotification st).message = postSuccessMessage := by
  unfold getNotification at h ⊢
  split at h
  · simp at h
  · split at h
    · simp at h
    · simp_all

/-- Witness: a GET against a one-document store answers 200 and its message
is the write endpoint's success message. -/
theorem c9_get_200_reuses_post_message_witness :
    (getNotification ⟨[sampleRecord], 1, true⟩).message = postSuccessMessage :=
  c9_get_200_reuses_post_message ⟨[sampleRecord], 1, true⟩ rfl

/-- C10: validation is plain JavaScript truthiness — a whitespace-only
message and userId pass it and the document is persisted and emitted, while
each falsy value (empty string, zero, false, null, undefined) in either
position is answered 400 with no side effect. -/
theorem c10_truthiness_validation (st : Store) (ioSt : IoState) (now : Nat)
    (hav : st.available = true) :
    notification ⟨.vStr " ", .vStr " "⟩ st (some ioSt) now =
      { response := some
          { status := 201, message := postSuccessMessage, success := true,
            data := some (.one
              { id := st.nextId, message := " ", userId := some " ", read := false,
                createdAt := now, updatedAt := now }) }
        store :=
          { records := st.records ++
              [{ id := st.nextId, message := " ", userId := some " ", read := false,
                 createdAt := now, updatedAt := now }],
            nextId := st.nextId + 1, available := st.available }
        io := some (ioSt.emit "notification"
              { id := st.nextId, message := " ", userId := some " ", read := false,
                createdAt := now, updatedAt := now })
        uncaught := false } ∧
    falsyValues.map truthy = [false, false, false, false, false] ∧
    falsyValues.map (fun v => notification ⟨v, .vStr "u1"⟩ st (some ioSt) now) =
      List.replicate 5
        { response := some badRequestResponse, store := st, io := some ioSt,
          uncaught := false } ∧
    falsyValues.map (fun v => notification ⟨.vStr "hello", v⟩ st (some ioSt) now) =
      List.replicate 5
        { response := some badRequestResponse, store := st, io := some ioSt,
          uncaught := false } := by
  refine ⟨?_, rfl, rfl, rfl⟩
  simp [notification, truthy, schemaCreate, requiredStringOk, castToString, getIo, hav]

/-- Witness: the C10 statement at a concrete store, socket state and time. -/
theorem c10_truthiness_validation_witness :
    notification ⟨.vStr " ", .vStr " "⟩ ⟨[], 0, true⟩ (some ⟨[7], []⟩) 5 =
      { response := some
          { status := 201, message := postSuccessMessage, success := true,
            data := some (.one blankRecord) }
        store := { records := [blankRecord], nextId := 1, available := true }
        io := some (IoState.emit ⟨[7], []⟩ "notification" blankRecord)
        uncaught := false } ∧
    falsyValues.map truthy = [false, false, false, false, false] ∧
    falsyValues.map (fun v => notification ⟨v, .vStr "u1"⟩ ⟨[], 0, true⟩ (some ⟨[7], []⟩) 5) =
      List.replicate 5
        { response := some badRequestResponse, store := ⟨[], 0, true⟩,
          io := some ⟨[7], []⟩, uncaught := false } ∧
    falsyValues.map (fun v => notification ⟨.vStr "hello", v⟩ ⟨[], 0, true⟩ (some ⟨[7], []⟩) 5) =
      List.replicate 5
        { response := some badRequestResponse, store := ⟨[], 0, true⟩,
          io := some ⟨[7], []⟩, uncaught := false } := by
  have h := c10_truthiness_validation ⟨[], 0, true⟩ ⟨[7], []⟩ 5 rfl
  simpa [blankRecord] using h

end WsNotify
